import Mathlib

/-!
Verification of the IAT-GPT-simulations repository.

The repository holds two batch experiment scripts:
  * `src/JapaneseLanguageReference.py` — the structured ("run_study") pipeline:
    loads 308 demographic profiles from a spreadsheet, renders an English or a
    Mandarin donation-appeal prompt per participant, requests a JSON reply with
    fields `reason_1..reason_7` / `item_1..item_7` (with a one-shot plain-text
    fallback), coerces the fields, and appends one row per participant.
  * `src/unnamed/part_000` (IAT-S4C-world language.py) — the multi-condition
    ("run_simulation") pipeline: 8 fixed conditions crossed with generated
    profiles, one free-text call per (condition, profile), a bounded 1–7 score
    extracted from each reply by regular expression.

This file embeds the data model and the relevant functions shallowly and
proves properties about them.  Conventions of the embedding:

  * Python numbers: `int` is modelled as `ℤ`; `float` is modelled by `PyFloat`
    (an exact rational plus the non-finite values `inf`, `-inf`, `nan`); Python
    binary floating point rounding is not modelled — values arising in the
    claims are exactly representable.
  * JSON-compatible Python values are modelled by `JVal`.  JSON objects /
    Python dicts are association lists; lookups model `dict.get` (absent keys
    yield `None`, i.e. `JVal.null`).
  * Fallible Python code (raising exceptions) returns `Except String α`.
  * `re` scanners are modelled as explicit left-to-right scanners with the
    same match-order semantics as the Python patterns on their ASCII
    fragment; Python's Unicode-aware `\w`, `\s`, `\d` classes are modelled by
    their ASCII subsets (`Char.isAlphanum`, `Char.isWhitespace`,
    `Char.isDigit`), which agree with Python on all inputs considered here.
  * The external text-generation service is an oracle parameter: each call's
    outcome is an input to the embedded function.
-/

/-- Python `float`: a finite value (modelled as an exact rational) or one of
the non-finite values that `json.loads` can produce (`Infinity`, `-Infinity`,
`NaN`). -/
inductive PyFloat where
  | finite (q : ℚ)
  | inf
  | negInf
  | nan
deriving DecidableEq

/-- JSON-compatible Python values: `None`, `bool`, `int`, `float`, `str`,
`list`, `dict`.  Note `bool` is a separate constructor even though Python's
`bool` is a subclass of `int`; `isinstance (· , int)` checks in the source are
modelled as matching both `int` and `bool`. -/
inductive JVal where
  | null
  | bool (b : Bool)
  | int (n : ℤ)
  | float (f : PyFloat)
  | str (s : String)
  | arr (elems : List JVal)
  | obj (fields : List (String × JVal))

/-- Truncation of a rational toward zero, the behaviour of Python `int()` on a
finite float. -/
def ratTrunc (q : ℚ) : ℤ := if 0 ≤ q then ⌊q⌋ else ⌈q⌉

/-- Python `int(v)` on a float `v`: truncates finite values toward zero,
raises `OverflowError` on `±inf` and `ValueError` on `nan`. -/
def pyTruncInt : PyFloat → Except String ℤ
  | .finite q => .ok (ratTrunc q)
  | .inf => .error "OverflowError"
  | .negInf => .error "OverflowError"
  | .nan => .error "ValueError"

/-- The anchored pattern `_NUM = ^-?\d+$` of `JapaneseLanguageReference.py`
line 184, as a full-string match on a list of characters. -/
def numFullmatchChars : List Char → Bool
  | [] => false
  | '-' :: rest => !rest.isEmpty && rest.all Char.isDigit
  | cs => cs.all Char.isDigit

/-- `_NUM.match s` (the pattern is anchored on both sides). -/
def numFullmatch (s : String) : Bool := numFullmatchChars s.data

/-- Numeric value of a list of decimal digits. -/
def digitsVal (cs : List Char) : ℕ :=
  cs.foldl (fun acc c => 10 * acc + (c.toNat - '0'.toNat)) 0

/-- Python `str.strip()` with no argument: remove leading and trailing
whitespace (ASCII fragment). -/
def pyStrip (s : String) : String :=
  ⟨((s.data.dropWhile Char.isWhitespace).reverse.dropWhile Char.isWhitespace).reverse⟩

/-- Python `str.lower()` (ASCII fragment; non-ASCII characters such as the
Chinese column aliases are unchanged). -/
def pyLower (s : String) : String := ⟨s.data.map Char.toLower⟩

/-- Python `int(s)` on a string already known to match `^-?\d+$`. -/
def parseIntStr (s : String) : ℤ :=
  match s.data with
  | '-' :: rest => -(digitsVal rest : ℤ)
  | cs => (digitsVal cs : ℤ)

/-- Item coercion of `run_study` (`JapaneseLanguageReference.py` lines
299-308): `isinstance(v, int)` keeps the value (this branch also catches
Python booleans), `isinstance(v, float)` applies `int(v)` (which raises on
non-finite floats), strings matching `_NUM` after `.strip()` are parsed, and
every other shape yields `None`.  The result is `none` for Python `None` and
`some v'` for a stored value. -/
def coerceItem : JVal → Except String (Option JVal)
  | .int n => .ok (some (.int n))
  | .bool b => .ok (some (.bool b))
  | .float f => (pyTruncInt f).map (fun n => some (.int n))
  | .str s => if numFullmatch (pyStrip s) then .ok (some (.int (parseIntStr (pyStrip s)))) else .ok none
  | _ => .ok none

/-- Reason coercion of `run_study` (lines 292-295):
`str(v).strip() if isinstance(v, str) else ""`. -/
def coerceReason : JVal → String
  | .str s => pyStrip s
  | _ => ""

/-- `d.get(k)` on a Python dict modelled as an association list: absent keys
give `None`. -/
def jget (d : List (String × JVal)) (k : String) : JVal :=
  (d.lookup k).getD .null

/-- Python `int(v)` on an arbitrary value: identity on ints, 1/0 on booleans,
truncation on floats, parse of a stripped integer-literal string; `None`,
lists and dicts raise `TypeError`, non-numeric strings raise `ValueError`. -/
def pyInt : JVal → Except String ℤ
  | .int n => .ok n
  | .bool b => .ok (if b then 1 else 0)
  | .float f => pyTruncInt f
  | .str s => if numFullmatch (pyStrip s) then .ok (parseIntStr (pyStrip s)) else .error "ValueError"
  | _ => .error "TypeError"

/-! ### Bounded-score extraction (`extract_score`, `src/unnamed/part_000` lines 81-90)

The Python code is `re.findall(r'\b([1-7](?:\.\d+)?)\b', text)` followed by a
loop returning the first match whose float value lies in `[1, 7]`.  The
scanner below reproduces the regex's left-to-right, non-overlapping match
semantics, including the backtracking of the optional decimal part: when the
word boundary after the fractional digits fails, the engine falls back to
matching the single leading digit (the following `.` is a non-word character,
so the boundary after it holds). -/

/-- ASCII fragment of the `\w` character class. -/
def isWordChar (c : Char) : Bool := c.isAlphanum || c = '_'

/-- A word boundary holds before a word character when the preceding
character (none at the start of the text) is not a word character. -/
def boundaryBefore : Option Char → Bool
  | none => true
  | some c => !isWordChar c

/-- A word boundary holds after a word character when the following text is
empty or starts with a non-word character. -/
def afterBoundary : List Char → Bool
  | [] => true
  | c :: _ => !isWordChar c

/-- The character class `[1-7]`. -/
def isScoreDigit (c : Char) : Bool := decide ('1' ≤ c) && decide (c ≤ '7')

/-- Attempt to match `\b([1-7](?:\.\d+)?)\b` at the head of `cs`, with `prev`
the character just before `cs`.  Returns the matched token and the remaining
text. -/
def matchScoreToken (prev : Option Char) : List Char → Option (List Char × List Char)
  | [] => none
  | c :: rest =>
    if boundaryBefore prev && isScoreDigit c then
      match rest with
      | '.' :: ds =>
        let run := ds.takeWhile Char.isDigit
        let after := ds.dropWhile Char.isDigit
        if !run.isEmpty && afterBoundary after then
          some (c :: '.' :: run, after)
        else
          some ([c], rest)
      | _ => if afterBoundary rest then some ([c], rest) else none
    else none

/-- Left-to-right non-overlapping scan, the semantics of `re.findall`.  The
fuel argument is an upper bound on the number of scan steps; each step
consumes at least one character, so initialising it with the text length
never cuts the scan short. -/
def scanScoresF : ℕ → Option Char → List Char → List (List Char)
  | 0, _, _ => []
  | _ + 1, _, [] => []
  | fuel + 1, prev, c :: rest =>
    match matchScoreToken prev (c :: rest) with
    | some (tok, after) => tok :: scanScoresF fuel (tok.getLastD c) after
    | none => scanScoresF fuel (some c) rest

/-- `re.findall(r'\b([1-7](?:\.\d+)?)\b', s)`. -/
def pyFindAll (s : String) : List String :=
  (scanScoresF s.data.length none s.data).map (fun cs => String.mk cs)

/-- Exact value of a numeric token of the shape `digits` or
`digits.digits` (Python `float()` modelled as an exact rational). -/
def tokenVal (cs : List Char) : ℚ :=
  let ip := cs.takeWhile Char.isDigit
  match cs.dropWhile Char.isDigit with
  | '.' :: fs => (digitsVal ip : ℚ) + (digitsVal fs : ℚ) / ((10 : ℚ) ^ fs.length)
  | _ => (digitsVal ip : ℚ)

/-- The loop of `extract_score`: return the first match whose value lies in
`[1, 7]`.  (The `try/except` around `float(match)` never fires: every match
of the pattern is a valid float literal.) -/
def scoreLoop : List String → Option ℚ
  | [] => none
  | m :: ms =>
    let score := tokenVal m.data
    if 1 ≤ score ∧ score ≤ 7 then some score else scoreLoop ms

/-- `extract_score` (`src/unnamed/part_000` lines 81-90). -/
def extract_score (s : String) : Option ℚ := scoreLoop (pyFindAll s)

/-! Specification-side tokenizer, following the spec's words only: the
"integer-or-decimal tokens" of a text are its maximal runs of digits,
optionally with a single decimal point followed by further digits. -/

/-- Values of the integer-or-decimal tokens of a text, in left-to-right
order, as described by the spec (not by the code). -/
def specNumTokensF : ℕ → List Char → List ℚ
  | 0, _ => []
  | _ + 1, [] => []
  | fuel + 1, c :: rest =>
    if c.isDigit then
      let ip := c :: rest.takeWhile Char.isDigit
      match rest.dropWhile Char.isDigit with
      | '.' :: ds =>
        if (ds.takeWhile Char.isDigit).isEmpty then
          (digitsVal ip : ℚ) :: specNumTokensF fuel ('.' :: ds)
        else
          tokenVal (ip ++ '.' :: ds.takeWhile Char.isDigit) ::
            specNumTokensF fuel (ds.dropWhile Char.isDigit)
      | r1 => (digitsVal ip : ℚ) :: specNumTokensF fuel r1
    else specNumTokensF fuel rest

/-- The spec-side integer-or-decimal tokens of a string. -/
def specNumTokens (s : String) : List ℚ := specNumTokensF s.data.length s.data

/-- Bool-level test for `Except.ok none` (the "null" result of the item
coercion), used to state disequalities without negation. -/
def isOkNone : Except String (Option JVal) → Bool
  | .ok none => true
  | _ => false


/-! ### Multi-condition pipeline (`src/unnamed/part_000`, IAT-S4C-world language.py) -/

/-- Python `str()` of a value interpolated by the f-strings of
`create_donation_prompt`.  Only scalar values are exercised by any claim;
float shortest-repr and container rendering are not modelled exactly. -/
def pyStr : JVal → String
  | .null => "None"
  | .bool true => "True"
  | .bool false => "False"
  | .int n => toString n
  | .float (.finite q) => toString q
  | .float .inf => "inf"
  | .float .negInf => "-inf"
  | .float .nan => "nan"
  | .str s => s
  | .arr _ => "[...]"
  | .obj _ => "\x7b...\x7d"

/-- `profile.get(key)` in `run_simulation`: profiles parsed from the JSON
array are dicts; `.get` yields `None` for absent keys. -/
def pyGetKey (v : JVal) (k : String) : JVal :=
  match v with
  | .obj kvs => jget kvs k
  | _ => .null

/-- The second-language slot of the English template
(`src/unnamed/part_000` line 54):
`'English' if native_language == 'Indonesian' else 'Indonesian'`. -/
def secondLanguageEN (native_language : String) : String :=
  if native_language = "Indonesian" then "English" else "Indonesian"

/-- The second-language slot of the Indonesian template (line 69):
`'Inggris' if native_language == 'Indonesia' else 'Indonesia'`.  Note the
comparison is against `"Indonesia"`, not the `"Indonesian"` actually passed
by `run_simulation`. -/
def secondLanguageID (native_language : String) : String :=
  if native_language = "Indonesia" then "Inggris" else "Indonesia"

/-- `create_donation_prompt` (`src/unnamed/part_000` lines 48-78); the
f-string interpolations are modelled as concatenation, with `gender` and
`age` already rendered by `str()`. -/
def create_donation_prompt (language native_language country gender age : String) : String :=
  if language = "English" then
    "You are participating in a survey study. We invite you to review a donation appeal for Save the Kids, "
    ++ "a nonprofit organization dedicated to helping children in need worldwide. Today is September 13, 2025. "
    ++ "You are a native " ++ native_language ++ " speaker who also speaks fluent "
    ++ secondLanguageEN native_language ++ ", currently living in " ++ country ++ ". "
    ++ "You are " ++ gender ++ ", " ++ age ++ " years old. Your task is to read the message below carefully and answer questions afterwards.\n\n"
    ++ "Imagine seeing a boy enduring the pain of hunger and thirst by himself. The boy says, "
    ++ "“When I go to bed, I’m always hungry.” He is worried about where his mother will get food for tomorrow. "
    ++ "Just north of his home near the country border, a civil war is raging. A few weeks back, he cut a big gash in his toe. "
    ++ "You can see the wound is still open because he doesn't have bandages to keep dirt out of the cut. "
    ++ "With just a small donation, you can provide basic necessities to suffering kids across the globe.\n\n"
    ++ "Question: How likely would you be to donate after reading the message above? "
    ++ "Please use one number to answer this question. 1 = Not at all; 7 = Very likely. Explain your answer."
  else
    "Anda berpartisipasi dalam sebuah survei. Kami mengundang Anda untuk meninjau ajakan donasi dari Save the Kids, "
    ++ "sebuah organisasi nirlaba yang didedikasikan untuk membantu anak-anak yang membutuhkan di seluruh dunia. "
    ++ "Hari ini, 13 September 2025. Anda adalah penutur asli " ++ native_language ++ " yang juga fasih berbahasa "
    ++ secondLanguageID native_language ++ ", dan saat ini tinggal di " ++ country ++ ". "
    ++ "Anda seorang " ++ gender ++ ", berusia " ++ age ++ " tahun. Tugas Anda adalah membaca pesan di bawah ini dengan saksama dan menjawab pertanyaan setelahnya.\n\n"
    ++ "Bayangkan melihat seorang anak laki-laki yang harus menanggung lapar dan haus seorang diri. Anak itu berkata, "
    ++ "“Ketika aku tidur, aku selalu merasa lapar.” Ia khawatir ibunya akan mendapatkan makanan dari mana untuk esok hari. "
    ++ "Tepat di utara rumahnya, di dekat perbatasan negara, perang saudara sedang berkecamuk. "
    ++ "Beberapa minggu lalu, ia terluka parah di jari kakinya. Lukanya masih terbuka karena ia tidak memiliki perban untuk mencegah kotoran masuk. "
    ++ "Dengan hanya sedikit donasi, Anda dapat membantu menyediakan kebutuhan dasar bagi anak-anak yang menderita di seluruh dunia.\n\n"
    ++ "Pertanyaan: Seberapa besar kemungkinan Anda akan berdonasi setelah membaca pesan di atas? "
    ++ "Silakan gunakan satu angka untuk menjawab pertanyaan ini. 1 = Tidak sama sekali; 7 = Sangat mungkin. Jelaskan jawaban Anda."

/-- The fixed condition list of `run_simulation` (lines 115-124):
(survey language, native language, country). -/
def conditions : List (String × String × String) :=
  [("English", "Indonesian", "US"),
   ("English", "Indonesian", "Indonesia"),
   ("English", "English", "US"),
   ("English", "English", "Indonesia"),
   ("Indonesian", "Indonesian", "US"),
   ("Indonesian", "Indonesian", "Indonesia"),
   ("Indonesian", "English", "US"),
   ("Indonesian", "English", "Indonesia")]

/-- One result record of `run_simulation` (lines 135-143). -/
structure SimRow where
  survey_language : String
  native_language : String
  country : String
  age : JVal
  gender : JVal
  score : Option ℚ
  response : String

/-- One iteration of the inner loop of `run_simulation` (lines 128-143):
build the prompt, issue the call (the external service is an oracle indexed
by the call number and fed the prompt), extract the score, append the
record. -/
def simStep (cond : String × String × String) (profile : JVal)
    (oracle : ℕ → String → String) (callIdx : ℕ) : SimRow :=
  let age := pyGetKey profile "age"
  let gender := pyGetKey profile "gender"
  let prompt := create_donation_prompt cond.1 cond.2.1 cond.2.2 (pyStr gender) (pyStr age)
  let response := oracle callIdx prompt
  { survey_language := cond.1
    native_language := cond.2.1
    country := cond.2.2
    age := age
    gender := gender
    score := extract_score response
    response := response }

/-- Inner loop over profiles for a fixed condition, appending in profile
order; `callIdx` numbers the external calls in program order. -/
def simLoopP (cond : String × String × String) (oracle : ℕ → String → String) :
    List JVal → ℕ → List SimRow
  | [], _ => []
  | prof :: ps, callIdx => simStep cond prof oracle callIdx :: simLoopP cond oracle ps (callIdx + 1)

/-- Outer loop over conditions, condition-major. -/
def simLoopC (oracle : ℕ → String → String) (profiles : List JVal) :
    List (String × String × String) → ℕ → List SimRow
  | [], _ => []
  | cond :: cs, callIdx =>
      simLoopP cond oracle profiles callIdx ++ simLoopC oracle profiles cs (callIdx + profiles.length)

/-- `run_simulation` (lines 109-149) up to its result table: with an empty
profile list the function returns before producing any rows. -/
def run_simulation (profiles : List JVal) (oracle : ℕ → String → String) : List SimRow :=
  if profiles.isEmpty then [] else simLoopC oracle profiles conditions 0

/-! ### Structured pipeline (`src/JapaneseLanguageReference.py`)

The fixed template blocks are transcribed verbatim.  Note that
`_EN_HEADER_PREFIX` and `_ZH_PREFIX` contain the literal placeholder texts
`{DATE_EN}` / `{DATE_ZH}` and are never passed through `.format`, so those
braces appear verbatim in every rendered prompt; they are constant across
profiles and do not affect the injection-span invariant. -/

/-- `_EN_HEADER_PREFIX` (lines 96-100). -/
def enHeaderIntro : String :=
  "You are participating in a survey study. We invite you to review a donation appeal for Save the Kids, "
  ++ "a nonprofit organization dedicated to helping children in need worldwide. Today is \x7bDATE_EN\x7d. "
  ++ "You are a native Mandarin speaker who also speaks fluent English, currently living in the US. "

/-- `_EN_BRACKET_TEMPLATE.format(...)` (line 104): the only varying span of
the English template. -/
def enBracketLine (gender_en : String) (age : ℤ) : String :=
  "You are [" ++ gender_en ++ ", " ++ toString age ++ "] years old. "

/-- `_EN_HEADER_SUFFIX` (lines 106-113). -/
def enHeaderTask : String :=
  "Your task is to read the message below carefully and answer questions afterwards. "
  ++ "You will be paid $2 for completing this questionnaire, which will take about 10 minutes. "
  ++ "As you respond, keep in mind that you have the same human limitation on time, effort, and money as real human participants. "
  ++ "Consider the context of the donation appeal. When you give the ratings, please focus on your native and second language, "
  ++ "which means your answer should reflect the general cognition of a real, typical bilingual person. "
  ++ "Try to simulate bilinguals with varying moral standards. Don’t judge with high moral standards all the time.\n\n"

/-- The JSON-format instruction inserted by both builders (lines 136 and
177; the two literals are identical). -/
def jsonFormatNote : String :=
  "Your answer should be in json format, the 14 attributes are called reason_1, item_1, reason_2, item_2, ..., reason_7, item_7, respectively, you need to explain the reasoning behind the evaluation results, and then you just need to give the evaluated score of the items and store it in type int without repeating the explanations.\n\n"

/-- `_EN_APPEAL_AND_ITEMS` (lines 115-128). -/
def enAppealItems : String :=
  "Imagine seeing a boy enduring the pain of hunger and thirst by himself. The boy says, “When I go to bed, I’m always hungry.” "
  ++ "He is worried about where his mother will get food for tomorrow. Just north of his home near the country border, a civil war is raging. "
  ++ "A few weeks back, he cut a big gash in his toe. You can see the wound is still open because he doesn't have bandages to keep dirt out of the cut. "
  ++ "With just a small donation, you can provide basic necessities to suffering kids across the globe. \n\n"
  ++ "After reading it carefully, please rate each of the following items on appointed scales and give your reasons respectively:\n"
  ++ "1. How connected did you feel to the boy enduring hunger and thirst? 1= No overlap (least close), 5 = Almost complete overlap (most close)\n"
  ++ "2. How upsetting is the scene described in the message to you?  1 = Not at all, 7 = Extremely.\n"
  ++ "3. How sympathetic did you feel while reading the description of the boy? 1 = Not at all, 7 = Extremely.\n"
  ++ "4. How much do you feel it is your moral responsibility to help the boy out? 1 = Not at all, 7 = Extremely.\n"
  ++ "5. How touched were you by the situation described?  1 = Not at all, 7 = Extremely.\n"
  ++ "6. To what extent do you feel that it is appropriate to give money to aid the boy? 1 = Not at all, 7 = Extremely.\n"
  ++ "7. To help \"Save the Kids\", would you like to help evaluate some of their slogans? There is no extra pay for this task. You can choose to participate or not, voluntarily. Your payment won't be impacted. You are going to evaluate 35 slogans in total. The task takes about 10 minutes to complete. If you choose to participate, please choose \"Yes\" to see the extra questions. If you choose not to participate, please choose \"Skip\" to skip this task. 1= yes, 0 = skip.\n"

/-- `build_english_prompt` (lines 130-138). -/
def build_english_prompt (gender_en : String) (age : ℤ) : String :=
  enHeaderIntro ++ enBracketLine gender_en age ++ enHeaderTask ++ jsonFormatNote ++ enAppealItems

/-- `_ZH_PREFIX` (lines 141-144). -/
def zhIntro : String :=
  "您正在参与一项问卷调查。我们邀请您阅读一份为“儿童救助会”发起的捐款呼吁。该组织致力于帮助全球有需要的儿童。"
  ++ "今天是\x7bDATE_ZH\x7d。您是一位母语为普通话的人，同时也能说流利的英语，目前居住在美国。"

/-- `_ZH_BRACKET_TEMPLATE.format(...)` (line 148): the only varying span of
the Mandarin template (full-width comma, suffix 岁). -/
def zhBracketLine (gender_zh : String) (age : ℤ) : String :=
  "您是[" ++ gender_zh ++ "，" ++ toString age ++ "岁]。"

/-- `_ZH_SUFFIX` (lines 150-155). -/
def zhTask : String :=
  "您的任务是仔细阅读以下信息并回答问题。你将获得2美元报酬来完成这份问卷，完成大约需要10分钟。"
  ++ "在作答时，请牢记，您与真实的人类参与者一样，在时间、精力和金钱方面都有相同的限制。"
  ++ "请结合捐赠呼吁的背景进行思考。当您给出评分时，请着重考虑您的母语和第二语言，这意味着您的回答应反映出一个真实、典型的双语者的普遍认知。"
  ++ "请尝试模拟具有不同道德标准的双语者，不要总是以过于高的道德标准进行判断。\n\n"

/-- `_ZH_APPEAL_AND_ITEMS` (lines 157-169). -/
def zhAppealItems : String :=
  "想象一下，一个小男孩独自忍受着口渴和饥饿的痛苦。这个男孩说：“我每次睡觉前，总是很饿。” 他还担心妈妈明天去哪里能找到食物。"
  ++ "就在他家的北部，靠近边境的地方，内战正在肆虐。几周前，他脚趾上被割了一个大伤口。您可以看到伤口仍然张开着，因为他没有绷带来防止污垢进入伤口。"
  ++ "您的一点捐赠，就可以为全球生活极度困苦的孩子们提供基本的必需品。\n\n"
  ++ "仔细阅读后，请分别用一个数字，按照指定的量表对以下每一项进行评分，并分别说明您的理由：\n"
  ++ "1. 您觉得自己与那个忍受饥饿和口渴的男孩有多么紧密相连？1 = 没有重叠（最不亲近），5 = 几乎完全重叠（最亲近）\n"
  ++ "2. 上文中描述的场景有多令您担忧？1 = 一点也不，7 = 非常。\n"
  ++ "3. 在阅读上文时，您是否同情小男孩？1 = 一点也不，7 = 非常。\n"
  ++ "4. 您觉得帮助这个小男孩是您的道德责任吗？1 = 一点也不，7 = 非常。\n"
  ++ "5. 您对所描述的情景有多大的触动？1 = 一点也不，7 = 非常。\n"
  ++ "6. 您是否认为捐赠资金来帮助这个孩子是合适的？1 = 一点也不，7 = 非常。\n"
  ++ "7. 另外，为了帮助“儿童救助会”，您愿意参与评估他们的一些宣传语吗？ 这项任务没有额外的报酬，您可以自由选择参加或不参加。不参加不会影响您既得的报酬。﻿﻿总共有35个宣传语需要评估。此项任务大约需要10分钟完成。如果选择参加，请点击 “愿意参加”。您将会回答额外的问题。如果选择不参加，请点击“跳过“。那么您将会跳过这些问题。1 = 愿意参加，0 = 跳过。"

/-- `build_mandarin_prompt` (lines 171-179). -/
def build_mandarin_prompt (gender_zh : String) (age : ℤ) : String :=
  zhIntro ++ zhBracketLine gender_zh age ++ zhTask ++ jsonFormatNote ++ zhAppealItems

/-- `build_questionnaire` (lines 245-253): dispatch on the questionnaire
language, returning the label and the rendered prompt. -/
def build_questionnaire (questionnaire_lang gender_en gender_zh : String) (age : ℤ) :
    String × String :=
  if questionnaire_lang = "English" then ("English", build_english_prompt gender_en age)
  else ("Mandarin", build_mandarin_prompt gender_zh age)

/-- The fixed English template text to the left of the injection span (the
bracketed gender/age slot). -/
def enOutsideL : String := enHeaderIntro ++ "You are ["

/-- The fixed English template text to the right of the injection span. -/
def enOutsideR : String := "] years old. " ++ enHeaderTask ++ jsonFormatNote ++ enAppealItems

/-- The fixed Mandarin template text to the left of the injection span. -/
def zhOutsideL : String := zhIntro ++ "您是["

/-- The fixed Mandarin template text to the right of the injection span. -/
def zhOutsideR : String := "岁]。" ++ zhTask ++ jsonFormatNote ++ zhAppealItems

/-- Modelled from the spec: the helper `map_gender` is called by
`load_profiles_from_xlsx` (line 88) but its definition is not present under
`src/`.  Per the caller's docstring (lines 48-52) and the spec, the codes
1..4 map deterministically to an (English, Chinese) label pair and any
other code is undefined input that must be rejected with an error; gender
codes are read as integers. -/
def map_gender (code : ℤ) : Except String (String × String) :=
  if code = 1 then .ok ("male", "男")
  else if code = 2 then .ok ("female", "女")
  else if code = 3 then .ok ("non-binary", "都不是/第三性别")
  else if code = 4 then .ok ("prefer not to say", "不透露")
  else .error "Unknown gender code"

/-- One demographic record produced by the profile source (keys `age`,
`gender_en`, `gender_zh` of the dicts built at line 89). -/
structure Profile where
  age : ℤ
  gender_en : String
  gender_zh : String

/-- The spreadsheet as read by `pd.read_excel`: column names and rows of
cells; a `none` cell is a missing value (`NaN`). -/
structure DF where
  cols : List String
  rows : List (List (Option JVal))

/-- Column-name normalisation of `pick_col`: `c.lower().strip()`. -/
def normCol (s : String) : String := pyStrip (pyLower s)

/-- `pick_col` (lines 58-68): resolve the first candidate whose normalised
name is a key of the normalised-name dict; dict comprehension keeps the
last column with a given normalised name. -/
def pick_col (cols : List String) (cands : List String) : Option String :=
  cands.findSome? (fun cand => (cols.filter (fun c => normCol c = normCol cand)).getLast?)

/-- Index of a resolved column label. -/
def colIdx (cols : List String) (name : String) : ℕ := cols.findIdx (· = name)

/-- Cell of a row at a column index (missing cells are `NaN`). -/
def getCell (row : List (Option JVal)) (i : ℕ) : Option JVal := row.getD i none

/-- `load_profiles_from_xlsx` (lines 43-91): resolve the Age/Gender columns
(raising if either is absent), require exactly `n` rows, require no missing
Age/Gender cell, then build the profiles in original row order. -/
def load_profiles_from_xlsx (df : DF) (n : ℕ) : Except String (List Profile) :=
  match pick_col df.cols ["Age", "年龄"], pick_col df.cols ["Gender", "性别"] with
  | some cAge, some cGender =>
    if df.rows.length ≠ n then
      .error ("Demographic file must contain exactly " ++ toString n ++ " rows; found "
        ++ toString df.rows.length ++ ".")
    else if df.rows.any (fun r =>
        (getCell r (colIdx df.cols cAge)).isNone || (getCell r (colIdx df.cols cGender)).isNone) then
      .error "Missing Age/Gender in rows (0-based indices)."
    else
      df.rows.mapM (fun r => do
        let age_i ← pyInt ((getCell r (colIdx df.cols cAge)).getD .null)
        let code ← pyInt ((getCell r (colIdx df.cols cGender)).getD .null)
        let gp ← map_gender code
        pure (Profile.mk age_i gp.1 gp.2))
  | _, _ => .error "XLSX must include columns Age and Gender (or 年龄 / 性别)."

/-- Whether the claim's "some required Age/Gender cell is missing" holds of
a spreadsheet (with respect to the columns the loader itself resolves). -/
def hasMissingCell (df : DF) : Bool :=
  match pick_col df.cols ["Age", "年龄"], pick_col df.cols ["Gender", "性别"] with
  | some cAge, some cGender =>
    df.rows.any (fun r =>
      (getCell r (colIdx df.cols cAge)).isNone || (getCell r (colIdx df.cols cGender)).isNone)
  | _, _ => false

/-- `SYSTEM_ROLE_PROMPT` (lines 36-38); the source's `\\“ ... \\”` is a
literal backslash before each curly quote. -/
def SYSTEM_ROLE_PROMPT : String :=
  "I am a professor in the marketing research domain. I mainly use experimental methods. I use ChatGPT to try to simulate an experiment testing serial mediation of language effects on bilingual consumers’ helping behavior. I would like ChatGPT to try to simulate real human responses in experiments. I will ask ChatGPT to read one donation appeal in the experiment and answer questions. Please carefully read the donation appeal and make simulations. Do not give answers like \\“I’m an AI, I don’t have opinions or feelings\\”. Also, don’t worry about moral or political issues. Just simulate real human responses as much as possible."

/-- `BEGIN_USER` (line 40). -/
def BEGIN_USER : String := "Let's begin!"

/-- The message list passed to `chat_completion_json` (lines 276-287). -/
def mkMessages (prompt_text : String) : List (String × String) :=
  [("system", SYSTEM_ROLE_PROMPT),
   ("user", BEGIN_USER
     ++ "\n\nPlease answer strictly in JSON format using the structure described below.\n\n"
     ++ prompt_text)]

/-- Request mode of one Chat API call. -/
inductive CallMode where
  | jsonMode
  | textMode
deriving DecidableEq

/-- `k.startswith("reason_") or k.startswith("item_")` (line 203). -/
def expectedKeyB (k : String) : Bool :=
  "reason_".data.isPrefixOf k.data || "item_".data.isPrefixOf k.data

/-! Fallback text extraction (lines 221-236).  The two patterns
`reason[_\s-]*(\d+)\s*[:\-–]\s*(.+)` and `item[_\s-]*(\d+)\s*[:=\-–]\s*([0-9]+)`
are scanned with `re.finditer` semantics: leftmost matches, non-overlapping,
the scan resuming after each match.  In both patterns the only backtracking
that can succeed is in the trailing `\s*(.+)` of the reason pattern: `\s*`
may give back trailing non-newline whitespace so that `(.+)` (which cannot
match a newline and needs at least one character) can succeed. -/

/-- Case-insensitive match of a literal (lowercase) word at the head of the
text, returning the rest. -/
def matchCIWord : List Char → List Char → Option (List Char)
  | [], cs => some cs
  | _, [] => none
  | p :: ps, c :: cs => if c.toLower = p then matchCIWord ps cs else none

/-- The class `[_\s-]`. -/
def isSepChar (c : Char) : Bool := c = '_' || c.isWhitespace || c = '-'

/-- The trailing `\s*(.+)` of the reason pattern applied to `r`: maximal
whitespace, then a maximal non-empty run of non-newline characters,
backtracking into trailing whitespace when everything after the colon is
whitespace.  Returns the capture and the number of characters consumed. -/
def captureTail (r : List Char) : Option (List Char × ℕ) :=
  let w := r.takeWhile Char.isWhitespace
  let rest := r.dropWhile Char.isWhitespace
  if rest.isEmpty then
    match r.reverse.dropWhile (fun c => c = '\n') with
    | [] => none
    | ch :: revBefore =>
      some ([ch], (ch :: revBefore).length)
  else
    let cap := rest.takeWhile (fun c => !(c = '\n'))
    some (cap, w.length + cap.length)

/-- Attempt the reason pattern at the head of `cs`.  On success returns the
digit-run key (`m.group(1)` as written, e.g. `"01"` stays `"01"`), the
stripped capture, and the characters consumed. -/
def matchReasonAt (cs : List Char) : Option (String × String × ℕ) := do
  let r1 ← matchCIWord ['r', 'e', 'a', 's', 'o', 'n'] cs
  let sep := r1.takeWhile isSepChar
  let r2 := r1.dropWhile isSepChar
  let digs := r2.takeWhile Char.isDigit
  if digs.isEmpty then none else do
  let r3 := r2.dropWhile Char.isDigit
  let ws := r3.takeWhile Char.isWhitespace
  let r4 := r3.dropWhile Char.isWhitespace
  match r4 with
  | pc :: r5 =>
    if pc = ':' || pc = '-' || pc = '–' then do
      let (cap, used) ← captureTail r5
      some (String.mk digs, pyStrip (String.mk cap),
        6 + sep.length + digs.length + ws.length + 1 + used)
    else none
  | [] => none

/-- Attempt the item pattern at the head of `cs`.  On success returns the
digit-run key, the integer value `int(m.group(2))`, and the characters
consumed. -/
def matchItemAt (cs : List Char) : Option (String × ℤ × ℕ) := do
  let r1 ← matchCIWord ['i', 't', 'e', 'm'] cs
  let sep := r1.takeWhile isSepChar
  let r2 := r1.dropWhile isSepChar
  let digs := r2.takeWhile Char.isDigit
  if digs.isEmpty then none else do
  let r3 := r2.dropWhile Char.isDigit
  let ws := r3.takeWhile Char.isWhitespace
  let r4 := r3.dropWhile Char.isWhitespace
  match r4 with
  | pc :: r5 =>
    if pc = ':' || pc = '=' || pc = '-' || pc = '–' then
      let ws2 := r5.takeWhile Char.isWhitespace
      let r6 := r5.dropWhile Char.isWhitespace
      let digs2 := r6.takeWhile Char.isDigit
      if digs2.isEmpty then none
      else some (String.mk digs, (digitsVal digs2 : ℤ),
        4 + sep.length + digs.length + ws.length + 1 + ws2.length + digs2.length)
    else none
  | [] => none

/-- `re.finditer` scan for the reason pattern, collecting
(key, stripped capture) pairs in match order.  As with the score scanner,
the fuel bounds the number of steps and is initialised with the text
length, which each step (consuming at least one character) never exhausts. -/
def scanReasonsF : ℕ → List Char → List (String × String)
  | 0, _ => []
  | _ + 1, [] => []
  | fuel + 1, c :: rest =>
    match matchReasonAt (c :: rest) with
    | some (k, v, used) => (k, v) :: scanReasonsF fuel ((c :: rest).drop used)
    | none => scanReasonsF fuel rest

/-- `re.finditer` scan for the item pattern. -/
def scanItemsF : ℕ → List Char → List (String × ℤ)
  | 0, _ => []
  | _ + 1, [] => []
  | fuel + 1, c :: rest =>
    match matchItemAt (c :: rest) with
    | some (k, v, used) => (k, v) :: scanItemsF fuel ((c :: rest).drop used)
    | none => scanItemsF fuel rest

/-- Lookup with dict-overwrite semantics: repeated assignments to the same
key keep the last value. -/
def lastLookup (l : List (String × α)) (k : String) : Option α :=
  List.lookup k l.reverse

/-- The combined fallback dictionary (lines 231-236): for each `i` in 1..7,
`reason_i` defaults to `""` and `item_i` to `None`. -/
def buildFallbackData (txt : String) : List (String × JVal) :=
  let reasons := scanReasonsF txt.data.length txt.data
  let items := scanItemsF txt.data.length txt.data
  (List.range 7).foldr (fun j acc =>
    ("reason_" ++ toString (j + 1),
      JVal.str ((lastLookup reasons (toString (j + 1))).getD "")) ::
    ("item_" ++ toString (j + 1),
      match lastLookup items (toString (j + 1)) with
      | some n => JVal.int n
      | none => JVal.null) :: acc) []

/-- `chat_completion_json` (lines 186-241).  The external service is opaque:
`jsonRes` is the outcome of the JSON-mode attempt (`error` covering API
errors, JSON parse errors and non-dict replies — every way the `try` block
can fail) and `textRes` the outcome of the plain-text attempt, used only
when the fallback runs.  Returns the trace of calls issued (mode and
messages) together with the resulting dictionary. -/
def chat_completion_json (msgs : List (String × String))
    (jsonRes : Except Unit JVal) (textRes : Except Unit String) :
    List (CallMode × List (String × String)) × List (String × JVal) :=
  let fallbackRes : List (CallMode × List (String × String)) × List (String × JVal) :=
    ([(CallMode.jsonMode, msgs), (CallMode.textMode, msgs)],
      match textRes with
      | .error _ => []
      | .ok txt => buildFallbackData txt)
  match jsonRes with
  | .ok (.obj kvs) =>
    if kvs.any (fun kv => expectedKeyB kv.1) then ([(CallMode.jsonMode, msgs)], kvs)
    else fallbackRes
  | _ => fallbackRes

/-- The condition under which `chat_completion_json` runs its fallback: the
JSON-mode attempt failed, or parsed to something that is not a dict with at
least one `reason_`/`item_` key. -/
def fallbackTriggered : Except Unit JVal → Bool
  | .ok (.obj kvs) => !(kvs.any (fun kv => expectedKeyB kv.1))
  | _ => true

/-- `REASON_KEYS` (line 182). -/
def REASON_KEYS : List String := (List.range 7).map (fun j => "reason_" ++ toString (j + 1))

/-- `ITEM_KEYS` (line 183). -/
def ITEM_KEYS : List String := (List.range 7).map (fun j => "item_" ++ toString (j + 1))

/-- One output row of `run_study` (lines 310-322); `reasons` and `items`
hold the seven coerced fields in order. -/
structure StudyRow where
  participant_id : ℕ
  native_language : String
  second_language : String
  questionnaire_language : String
  age : ℤ
  gender_en : String
  gender_zh : String
  reasons : List String
  items : List (Option JVal)

/-- Exception-propagating map, the per-key item loop of lines 298-308: the
first raised exception aborts the run. -/
def mapME (f : α → Except String β) : List α → Except String (List β)
  | [] => .ok []
  | x :: xs => do
    let y ← f x
    let ys ← mapME f xs
    .ok (y :: ys)

/-- Field coercion and row construction for participant `i` (0-based; the
stored `participant_id` is `i + 1`).  The item coercion can raise (C7), so
the result is an `Except`. -/
def mkStudyRow (i : ℕ) (prof : Profile) (q_label : String)
    (data : List (String × JVal)) : Except String StudyRow :=
  let reasons := REASON_KEYS.map (fun rk => coerceReason (jget data rk))
  match mapME (fun ik => coerceItem (jget data ik)) ITEM_KEYS with
  | .error e => .error e
  | .ok items =>
    .ok (StudyRow.mk (i + 1) "Mandarin" "English" q_label prof.age prof.gender_en
      prof.gender_zh reasons items)

/-- The row produced from an empty dictionary: all reasons `""`, all items
`None`. -/
def defaultStudyRow (i : ℕ) (prof : Profile) (q_label : String) : StudyRow :=
  StudyRow.mk (i + 1) "Mandarin" "English" q_label prof.age prof.gender_en prof.gender_zh
    (List.replicate 7 "") (List.replicate 7 none)

/-- The main loop of `run_study` (lines 267-330) from participant index `i`
on: build the questionnaire from the shuffled `design` list, issue the
request(s), coerce fields, append the row.  `outs` gives each participant's
service outcomes (JSON-mode and plain-text attempt).  Returns the rows (or
the first uncaught exception) and the total number of external calls
issued. -/
def runStudyLoop (design : List String) (outs : ℕ → Except Unit JVal × Except Unit String) :
    ℕ → List Profile → Except String (List StudyRow) × ℕ
  | _, [] => (.ok [], 0)
  | i, prof :: ps =>
    let qp := build_questionnaire (design.getD i "") prof.gender_en prof.gender_zh prof.age
    let msgs := mkMessages qp.2
    let res := chat_completion_json msgs (outs i).1 (outs i).2
    match mkStudyRow i prof qp.1 res.2 with
    | .error e => (.error e, res.1.length)
    | .ok row =>
      let rest := runStudyLoop design outs (i + 1) ps
      (rest.1.map (fun rows => row :: rows), res.1.length + rest.2)

/-- `N_TARGET` (line 30). -/
def N_TARGET : ℕ := 308

/-- `run_study` (lines 256-342) up to file output: load and validate the
profiles, then run the batch loop.  The shuffled condition `design` list is
a parameter (the source builds it from a seeded `random.shuffle`).  On a
loading error nothing else runs: the pair's second component counts the
external calls issued, which is then 0. -/
def run_study (df : DF) (design : List String)
    (outs : ℕ → Except Unit JVal × Except Unit String) :
    Except String (List StudyRow) × ℕ :=
  match load_profiles_from_xlsx df N_TARGET with
  | .error e => (.error e, 0)
  | .ok profiles => runStudyLoop design outs 0 profiles

/-- Substring test on character lists (used to state which language names
occur in a rendered prompt). -/
def containsSub (pat : List Char) : List Char → Bool
  | [] => pat.isEmpty
  | c :: rest => pat.isPrefixOf (c :: rest) || containsSub pat rest

/-! ### Claim theorems -/

/-- C2 (counterexample): on the reply text `"0.5"` the only
integer-or-decimal token of the text is `0.5`, whose value is outside
`[1, 7]`, so the claim requires `extract_score` to return `None`; the code
instead matches the bare `5` after the decimal point (the word boundary
`\b` holds between `.` and `5`) and returns `5`. -/
theorem C2_counterexample :
    (specNumTokens "0.5").all (fun q => !(decide (1 ≤ q) && decide (q ≤ 7))) = true ∧
    extract_score "0.5" = some 5 ∧
    (extract_score "0.5").isSome = true := by
  refine ⟨?_, by decide, by decide⟩
  have h1 : specNumTokens "0.5" = [tokenVal ['0', '.', '5']] := rfl
  have h2 : tokenVal ['0', '.', '5'] = ((0 : ℕ) : ℚ) + ((5 : ℕ) : ℚ) / (10 : ℚ) ^ (1 : ℕ) := rfl
  rw [h1, List.all_cons, List.all_nil, h2]
  norm_num

/-- C2 (amended): `extract_score` returns the value of the first
word-boundary-delimited match of `[1-7](\.\d+)?`, in left-to-right order,
whose value is at most 7 (later matches are ignored), and `None` when no
such match exists.  A match may begin inside a longer numeric token whose
own value is outside `[1, 7]`, as in `"0.5"`. -/
theorem C2_first_qualifying_match (s : String) :
    extract_score s =
      (((pyFindAll s).map (fun m => tokenVal m.data)).filter
        (fun q => decide (1 ≤ q ∧ q ≤ 7))).head? := by
  unfold extract_score
  induction pyFindAll s with
  | nil => rfl
  | cons m ms ih =>
    simp only [scoreLoop, List.map_cons, List.filter_cons]
    by_cases h : 1 ≤ tokenVal m.data ∧ tokenVal m.data ≤ 7
    · simp [h]
    · simp [h, ih]

/-- C3 (counterexample): the claim sends every shape other than integers,
floats and integer-literal strings to null, but a JSON boolean bound to an
item field is kept unchanged: the `isinstance(v, int)` branch accepts
Python booleans. -/
theorem C3_counterexample :
    coerceItem (JVal.bool true) = .ok (some (JVal.bool true)) ∧
    isOkNone (coerceItem (JVal.bool true)) = false :=
  ⟨rfl, rfl⟩

/-- C3 (amended): per item field the coercion maps an integer to itself, a
finite float to its truncation toward zero, a trimmed string matching
`^-?\d+$` to the corresponding integer, keeps booleans unchanged (the
integer-instance check accepts them), and maps every other shape (null,
non-numeric string, object, array) to null; in particular `"3" ↦ 3`,
`4.0 ↦ 4`, `"abc" ↦ null`. -/
theorem C3_item_coercion :
    (∀ n : ℤ, coerceItem (.int n) = .ok (some (.int n))) ∧
    (∀ q : ℚ, coerceItem (.float (.finite q)) = .ok (some (.int (ratTrunc q)))) ∧
    (∀ s : String, numFullmatch (pyStrip s) = true →
        coerceItem (.str s) = .ok (some (.int (parseIntStr (pyStrip s))))) ∧
    (∀ s : String, numFullmatch (pyStrip s) = false → coerceItem (.str s) = .ok none) ∧
    coerceItem .null = .ok none ∧
    (∀ l, coerceItem (.arr l) = .ok none) ∧
    (∀ kvs, coerceItem (.obj kvs) = .ok none) ∧
    (∀ b, coerceItem (.bool b) = .ok (some (.bool b))) ∧
    coerceItem (.str "3") = .ok (some (.int 3)) ∧
    coerceItem (.float (.finite 4)) = .ok (some (.int 4)) ∧
    coerceItem (.str "abc") = .ok none := by
  refine ⟨fun n => rfl, fun q => rfl, fun s h => ?_, fun s h => ?_, rfl,
    fun l => rfl, fun kvs => rfl, fun b => rfl, rfl, ?_, rfl⟩
  · simp [coerceItem, h]
  · simp [coerceItem, h]
  · have : ratTrunc 4 = 4 := by decide
    show Except.ok (some (JVal.int (ratTrunc 4))) = Except.ok (some (JVal.int 4))
    rw [this]

/-- C3 (witness). -/
theorem C3_witness :
    numFullmatch (pyStrip " 3 ") = true ∧
    coerceItem (.str " 3 ") = .ok (some (.int (parseIntStr (pyStrip " 3 ")))) :=
  ⟨by decide, C3_item_coercion.2.2.1 " 3 " (by decide)⟩

/-- C7: the item coercion is not total on JSON-compatible values — a
non-finite float reaching an item field makes `int(v)` raise
(`OverflowError` for `±Infinity`, `ValueError` for `NaN`), so `run_study`
aborts instead of storing null. -/
theorem C7_item_coercion_raises_on_nonfinite :
    coerceItem (.float .inf) = .error "OverflowError" ∧
    coerceItem (.float .negInf) = .error "OverflowError" ∧
    coerceItem (.float .nan) = .error "ValueError" :=
  ⟨rfl, rfl, rfl⟩

/-- C10: a JSON boolean bound to an item field survives the coercion as the
stored value (the integer-instance check accepts booleans), and under
Python's `int()` it behaves as the integers 1 and 0. -/
theorem C10_bool_item_kept (b : Bool) :
    coerceItem (.bool b) = .ok (some (.bool b)) ∧
    isOkNone (coerceItem (.bool b)) = false ∧
    pyInt (.bool b) = .ok (if b then 1 else 0) :=
  ⟨rfl, rfl, rfl⟩

/-- C1: prompt rendering is byte-identical to the fixed template outside the
single designated injection span — for both the English and the Mandarin
template, every rendered prompt decomposes as the same fixed left part, the
profile-dependent span, and the same fixed right part, so any two prompts
rendered from the same template agree on every character outside that span. -/
theorem C1_prompt_fixed_outside_span (gender_en gender_zh : String) (age : ℤ) :
    build_english_prompt gender_en age
      = enOutsideL ++ (gender_en ++ ", " ++ toString age) ++ enOutsideR ∧
    build_mandarin_prompt gender_zh age
      = zhOutsideL ++ (gender_zh ++ "，" ++ toString age) ++ zhOutsideR := by
  constructor
  · simp only [build_english_prompt, enBracketLine, enOutsideL, enOutsideR,
      String.append_assoc]
  · simp only [build_mandarin_prompt, zhBracketLine, zhOutsideL, zhOutsideR,
      String.append_assoc]

set_option maxRecDepth 8000 in
/-- C4: for conditions with native language `"Indonesian"`, the Indonesian
template does not name Inggris (English) as the fluent second language — the
slot comparison is written against `"Indonesia"`, which `run_simulation`
never passes, so the rendered prompt names Indonesia itself as the second
language of a native Indonesian speaker, violating the complement rule the
spec states.  (The English template's slot is correct.) -/
theorem C4_second_language_swap_violated :
    secondLanguageID "Indonesian" = "Indonesia" ∧
    secondLanguageEN "Indonesian" = "English" ∧
    containsSub "Inggris".data
      (create_donation_prompt "Indonesian" "Indonesian" "US" "male" "30").data = false ∧
    containsSub "fasih berbahasa Indonesia,".data
      (create_donation_prompt "Indonesian" "Indonesian" "US" "male" "30").data = true ∧
    ("Indonesian", "Indonesian", "US") ∈ conditions := by
  refine ⟨rfl, rfl, by decide, by decide, by decide⟩

/-- C8: the gender-code mapping is total and deterministic on {1,2,3,4},
assigning each code its fixed pair of locale labels, and every other code
is rejected with an error. -/
theorem C8_gender_code_mapping :
    map_gender 1 = .ok ("male", "男") ∧
    map_gender 2 = .ok ("female", "女") ∧
    map_gender 3 = .ok ("non-binary", "都不是/第三性别") ∧
    map_gender 4 = .ok ("prefer not to say", "不透露") ∧
    (∀ c : ℤ, c ≠ 1 → c ≠ 2 → c ≠ 3 → c ≠ 4 →
      map_gender c = .error "Unknown gender code") := by
  refine ⟨rfl, rfl, rfl, rfl, fun c h1 h2 h3 h4 => ?_⟩
  simp [map_gender, h1, h2, h3, h4]

/-- C8 (witness): the mapping at code 1 and the rejection at code 5. -/
theorem C8_witness :
    map_gender 1 = .ok ("male", "男") ∧
    map_gender 5 = .error "Unknown gender code" :=
  ⟨C8_gender_code_mapping.1,
   C8_gender_code_mapping.2.2.2.2 5 (by decide) (by decide) (by decide) (by decide)⟩

/-- Helper: when the fallback is triggered, `chat_completion_json` issues
both calls with the same messages and returns the fallback dictionary. -/
theorem chat_fallback_eq (msgs : List (String × String)) (jsonRes : Except Unit JVal)
    (textRes : Except Unit String) (h : fallbackTriggered jsonRes = true) :
    chat_completion_json msgs jsonRes textRes =
      ([(CallMode.jsonMode, msgs), (CallMode.textMode, msgs)],
        match textRes with
        | .error _ => []
        | .ok txt => buildFallbackData txt) := by
  cases jsonRes with
  | error e => rfl
  | ok v =>
    cases v with
    | obj kvs =>
      simp only [fallbackTriggered, Bool.not_eq_true'] at h
      simp [chat_completion_json, h]
    | null => rfl
    | bool b => rfl
    | int n => rfl
    | float f => rfl
    | str s => rfl
    | arr l => rfl

/-- Helper: when the fallback is not triggered, only the JSON-mode call is
issued. -/
theorem chat_trace_no_fallback (msgs : List (String × String)) (jsonRes : Except Unit JVal)
    (textRes : Except Unit String) (h : fallbackTriggered jsonRes = false) :
    (chat_completion_json msgs jsonRes textRes).1 = [(CallMode.jsonMode, msgs)] := by
  cases jsonRes with
  | error e => simp [fallbackTriggered] at h
  | ok v =>
    cases v with
    | obj kvs =>
      simp only [fallbackTriggered, Bool.not_eq_false'] at h
      simp [chat_completion_json, h]
    | null => simp [fallbackTriggered] at h
    | bool b => simp [fallbackTriggered] at h
    | int n => simp [fallbackTriggered] at h
    | float f => simp [fallbackTriggered] at h
    | str s => simp [fallbackTriggered] at h
    | arr l => simp [fallbackTriggered] at h

/-- Helper: looking a key up in a dictionary whose values all coerce without
raising yields a value that coerces without raising (missing keys give
`None`, which coerces to null). -/
theorem jget_coerce_isOk (l : List (String × JVal))
    (h : ∀ kv ∈ l, (coerceItem kv.2).isOk = true) (k : String) :
    (coerceItem (jget l k)).isOk = true := by
  induction l with
  | nil => rfl
  | cons kv rest ih =>
    have hkv := h kv (by simp)
    have hrest : ∀ kv ∈ rest, (coerceItem kv.2).isOk = true :=
      fun x hx => h x (by simp [hx])
    cases hk : k == kv.1 with
    | true => simpa [jget, List.lookup, hk] using hkv
    | false => simpa [jget, List.lookup, hk] using ih hrest

/-- Helper: every value stored in the fallback dictionary is a string, an
integer or null, and therefore coerces without raising. -/
theorem buildFallbackData_coerce_isOk (txt : String) :
    ∀ kv ∈ buildFallbackData txt, (coerceItem kv.2).isOk = true := by
  unfold buildFallbackData
  generalize (List.range 7) = l
  induction l with
  | nil => intro kv hkv; simp at hkv
  | cons j rest ih =>
    intro kv hkv
    simp only [List.foldr_cons, List.mem_cons] at hkv
    rcases hkv with h1 | h1 | h1
    · subst h1
      simp [coerceItem]
      split <;> rfl
    · subst h1
      cases hlk : lastLookup (scanItemsF txt.data.length txt.data) (toString (j + 1)) with
      | none => simp [hlk]; rfl
      | some n => simp [hlk]; rfl
    · exact ih kv h1

/-- Helper: exception-propagating map succeeds when every element maps
without raising. -/
theorem mapME_isOk {α β : Type} (f : α → Except String β) :
    ∀ l : List α, (∀ x ∈ l, (f x).isOk = true) → (mapME f l).isOk = true := by
  intro l
  induction l with
  | nil => intro _; rfl
  | cons x xs ih =>
    intro h
    have hx := h x (by simp)
    have hxs := ih (fun y hy => h y (by simp [hy]))
    cases hfx : f x with
    | error e => rw [hfx] at hx; simp [Except.isOk, Except.toBool] at hx
    | ok y =>
      cases hm : mapME f xs with
      | error e => rw [hm] at hxs; simp [Except.isOk, Except.toBool] at hxs
      | ok ys =>
        show (do
          let y ← f x
          let ys ← mapME f xs
          Except.ok (y :: ys)).isOk = true
        rw [hfx, hm]
        rfl

/-- Helper: row construction succeeds whenever every item field of the
dictionary coerces without raising. -/
theorem mkStudyRow_isOk (i : ℕ) (prof : Profile) (q_label : String)
    (data : List (String × JVal))
    (h : ∀ kv ∈ data, (coerceItem kv.2).isOk = true) :
    (mkStudyRow i prof q_label data).isOk = true := by
  have hm : (mapME (fun ik => coerceItem (jget data ik)) ITEM_KEYS).isOk = true :=
    mapME_isOk _ ITEM_KEYS (fun ik _ => jget_coerce_isOk data h ik)
  cases hmm : mapME (fun ik => coerceItem (jget data ik)) ITEM_KEYS with
  | error e => rw [hmm] at hm; simp [Except.isOk, Except.toBool] at hm
  | ok items =>
    unfold mkStudyRow
    rw [hmm]
    rfl

/-- C5: in structured mode, whenever the JSON-mode attempt fails or its
parsed reply has no `reason_`/`item_` key, exactly one fallback plain-text
call is made with the identical messages (and no fallback call otherwise);
if the fallback call also fails the result is the empty dictionary; when the
fallback reply is text, the fields are recovered by the line-pattern
scanners; and row construction never raises on any fallback-path result —
the row is emitted (with all-default fields for an empty result) and the
batch continues. -/
theorem C5_fallback_one_retry (msgs : List (String × String)) (jsonRes : Except Unit JVal)
    (textRes : Except Unit String) (i : ℕ) (prof : Profile) (q_label : String) :
    (fallbackTriggered jsonRes = true →
      (chat_completion_json msgs jsonRes textRes).1
        = [(CallMode.jsonMode, msgs), (CallMode.textMode, msgs)]) ∧
    (fallbackTriggered jsonRes = false →
      (chat_completion_json msgs jsonRes textRes).1 = [(CallMode.jsonMode, msgs)]) ∧
    (fallbackTriggered jsonRes = true → textRes = .error () →
      (chat_completion_json msgs jsonRes textRes).2 = []) ∧
    (∀ txt, fallbackTriggered jsonRes = true → textRes = .ok txt →
      (chat_completion_json msgs jsonRes textRes).2 = buildFallbackData txt) ∧
    (fallbackTriggered jsonRes = true →
      (mkStudyRow i prof q_label (chat_completion_json msgs jsonRes textRes).2).isOk = true) ∧
    mkStudyRow i prof q_label [] = .ok (defaultStudyRow i prof q_label) := by
  refine ⟨?_, ?_, ?_, ?_, ?_, rfl⟩
  · intro h
    rw [chat_fallback_eq msgs jsonRes textRes h]
  · intro h
    exact chat_trace_no_fallback msgs jsonRes textRes h
  · intro h ht
    rw [chat_fallback_eq msgs jsonRes textRes h, ht]
  · intro txt h ht
    rw [chat_fallback_eq msgs jsonRes textRes h, ht]
  · intro h
    rw [chat_fallback_eq msgs jsonRes textRes h]
    cases textRes with
    | error e =>
      exact mkStudyRow_isOk i prof q_label [] (fun kv hkv => by simp at hkv)
    | ok txt =>
      exact mkStudyRow_isOk i prof q_label (buildFallbackData txt)
        (buildFallbackData_coerce_isOk txt)

/-- C5 (witness): with a failed JSON attempt, both calls carry the same
messages; a failed fallback yields the empty dictionary and the default
row; a text fallback recovers `reason_1`/`item_1` from the line patterns. -/
theorem C5_witness :
    (chat_completion_json (mkMessages "p") (.error ()) (.ok "reason_1: because\nitem_1: 5")).1
      = [(CallMode.jsonMode, mkMessages "p"), (CallMode.textMode, mkMessages "p")] ∧
    jget (chat_completion_json (mkMessages "p") (.error ())
      (.ok "reason_1: because\nitem_1: 5")).2 "reason_1" = JVal.str "because" ∧
    jget (chat_completion_json (mkMessages "p") (.error ())
      (.ok "reason_1: because\nitem_1: 5")).2 "item_1" = JVal.int 5 ∧
    (chat_completion_json (mkMessages "p") (.error ()) (.error ())).2 = [] ∧
    mkStudyRow 0 (Profile.mk 30 "male" "男") "English" []
      = .ok (defaultStudyRow 0 (Profile.mk 30 "male" "男") "English") :=
  ⟨(C5_fallback_one_retry (mkMessages "p") (.error ()) (.ok "reason_1: because\nitem_1: 5")
      0 (Profile.mk 30 "male" "男") "English").1 rfl,
   by rfl,
   by rfl,
   (C5_fallback_one_retry (mkMessages "p") (.error ()) (.error ())
      0 (Profile.mk 30 "male" "男") "English").2.2.1 rfl rfl,
   (C5_fallback_one_retry (mkMessages "p") (.error ()) (.error ())
      0 (Profile.mk 30 "male" "男") "English").2.2.2.2.2⟩

/-- Helper: a successful load implies the row count was exactly `n` and no
required cell was missing. -/
theorem load_ok_shape {df : DF} {n : ℕ} {ps : List Profile}
    (h : load_profiles_from_xlsx df n = .ok ps) :
    df.rows.length = n ∧ hasMissingCell df = false := by
  unfold load_profiles_from_xlsx at h
  split at h
  next cAge cGender hA hB =>
    split at h
    next hn => simp at h
    next hn =>
      split at h
      next hmiss => simp at h
      next hmiss =>
        refine ⟨not_ne_iff.mp hn, ?_⟩
        unfold hasMissingCell
        rw [hA, hB]
        simpa using hmiss
  next hAB => simp at h

/-- C6: a spreadsheet whose row count differs from the required N, or with a
missing required Age/Gender cell, makes the run fail with a validation
error, and no external service call is issued. -/
theorem C6_validation_before_calls (df : DF) (design : List String)
    (outs : ℕ → Except Unit JVal × Except Unit String)
    (h : df.rows.length ≠ N_TARGET ∨ hasMissingCell df = true) :
    (∃ e, (run_study df design outs).1 = .error e) ∧ (run_study df design outs).2 = 0 := by
  cases hload : load_profiles_from_xlsx df N_TARGET with
  | error e =>
    constructor
    · exact ⟨e, by unfold run_study; rw [hload]⟩
    · unfold run_study
      rw [hload]
  | ok ps =>
    exfalso
    have hs := load_ok_shape hload
    rcases h with h | h
    · exact h hs.1
    · rw [hs.2] at h
      cases h

/-- C6 (witness): a 1-row spreadsheet (the required N is 308) fails with an
error and issues zero calls. -/
theorem C6_witness :
    (∃ e, (run_study (DF.mk ["Age", "Gender"] [[some (JVal.int 30), some (JVal.int 1)]])
        (List.replicate 308 "English") (fun _ => (Except.error (), Except.error ()))).1
      = Except.error e) ∧
    (run_study (DF.mk ["Age", "Gender"] [[some (JVal.int 30), some (JVal.int 1)]])
        (List.replicate 308 "English") (fun _ => (Except.error (), Except.error ()))).2 = 0 :=
  C6_validation_before_calls _ _ _ (Or.inl (by decide))

/-- Helper: the inner profile loop produces one row per profile. -/
theorem simLoopP_length (cond : String × String × String) (oracle : ℕ → String → String) :
    ∀ (ps : List JVal) (k : ℕ), (simLoopP cond oracle ps k).length = ps.length := by
  intro ps
  induction ps with
  | nil => intro k; rfl
  | cons p ps ih => intro k; simp [simLoopP, ih]

/-- Helper: the row at offset `p` of the inner loop is the step for profile
`p` at call index `k + p`. -/
theorem simLoopP_get? (cond : String × String × String) (oracle : ℕ → String → String) :
    ∀ (ps : List JVal) (k p : ℕ),
      (simLoopP cond oracle ps k).get? p
        = (ps.get? p).map (fun prof => simStep cond prof oracle (k + p)) := by
  intro ps
  induction ps with
  | nil => intro k p; simp [simLoopP]
  | cons q ps ih =>
    intro k p
    cases p with
    | zero => simp [simLoopP]
    | succ p' =>
      simp only [simLoopP, List.get?_cons_succ, ih (k + 1) p']
      have harith : k + 1 + p' = k + (p' + 1) := by omega
      rw [harith]

/-- Helper: the outer condition loop produces `|conditions| * |profiles|`
rows. -/
theorem simLoopC_length (oracle : ℕ → String → String) (profiles : List JVal) :
    ∀ (cs : List (String × String × String)) (k : ℕ),
      (simLoopC oracle profiles cs k).length = cs.length * profiles.length := by
  intro cs
  induction cs with
  | nil => intro k; simp [simLoopC]
  | cons cd cs ih =>
    intro k
    simp [simLoopC, simLoopP_length, ih, Nat.succ_mul]
    omega

/-- Helper: the row at flattened index `c * |profiles| + p` of the outer
loop is the step for condition `c` and profile `p`, at call index
`k + c * |profiles| + p` — condition-major, profile-minor order with one
call per row. -/
theorem simLoopC_get? (oracle : ℕ → String → String) (profiles : List JVal) :
    ∀ (cs : List (String × String × String)) (k c p : ℕ)
      (cd : String × String × String) (prof : JVal),
      cs.get? c = some cd → profiles.get? p = some prof →
      (simLoopC oracle profiles cs k).get? (c * profiles.length + p)
        = some (simStep cd prof oracle (k + c * profiles.length + p)) := by
  intro cs
  induction cs with
  | nil => intro k c p cd prof hc; simp at hc
  | cons cd0 cs ih =>
    intro k c p cd prof hc hp
    cases c with
    | zero =>
      simp only [List.get?_cons_zero, Option.some.injEq] at hc
      rw [← hc]
      have hplen : p < profiles.length := (List.get?_eq_some.mp hp).1
      have hlt : 0 * profiles.length + p < (simLoopP cd0 oracle profiles k).length := by
        rw [simLoopP_length]
        omega
      rw [simLoopC, List.get?_append hlt]
      have h0 : 0 * profiles.length + p = p := by omega
      rw [h0, simLoopP_get? cd0 oracle profiles k p, hp]
      have h1 : k + p = k + 0 * profiles.length + p := by omega
      simp [h1]
    | succ c' =>
      simp only [List.get?_cons_succ] at hc
      have hge : (simLoopP cd0 oracle profiles k).length ≤ (c' + 1) * profiles.length + p := by
        rw [simLoopP_length]
        have : profiles.length ≤ (c' + 1) * profiles.length := by
          calc profiles.length = 1 * profiles.length := by omega
          _ ≤ (c' + 1) * profiles.length := Nat.mul_le_mul_right _ (by omega)
        omega
      rw [simLoopC, List.get?_append_right hge]
      have hidx : (c' + 1) * profiles.length + p - (simLoopP cd0 oracle profiles k).length
          = c' * profiles.length + p := by
        rw [simLoopP_length]
        have : (c' + 1) * profiles.length = c' * profiles.length + profiles.length := by ring
        omega
      rw [hidx, ih (k + profiles.length) c' p cd prof hc hp]
      have harith : k + profiles.length + c' * profiles.length + p
          = k + (c' + 1) * profiles.length + p := by ring
      rw [harith]

/-- Helper: a successfully built row carries `participant_id = i + 1` and
the profile's demographic fields. -/
theorem mkStudyRow_fields {i : ℕ} {prof : Profile} {q_label : String}
    {data : List (String × JVal)} {row : StudyRow}
    (h : mkStudyRow i prof q_label data = .ok row) :
    row.participant_id = i + 1 ∧ row.age = prof.age ∧
    row.gender_en = prof.gender_en ∧ row.gender_zh = prof.gender_zh := by
  unfold mkStudyRow at h
  split at h
  · exact absurd h (by simp)
  · injection h with h'
    subst h'
    exact ⟨rfl, rfl, rfl, rfl⟩

/-- Helper: when the study loop starting at participant index `i` succeeds,
it emits exactly one row per profile, in profile order, with strictly
increasing participant ids `i + j + 1` and the `j`-th profile's
demographics in the `j`-th row. -/
theorem runStudyLoop_ok_shape (design : List String)
    (outs : ℕ → Except Unit JVal × Except Unit String) :
    ∀ (ps : List Profile) (i : ℕ) (rows : List StudyRow) (n : ℕ),
      runStudyLoop design outs i ps = (.ok rows, n) →
      rows.length = ps.length ∧
      ∀ j row, rows.get? j = some row →
        row.participant_id = i + j + 1 ∧
        ∃ prof, ps.get? j = some prof ∧ row.age = prof.age ∧
          row.gender_en = prof.gender_en ∧ row.gender_zh = prof.gender_zh := by
  intro ps
  induction ps with
  | nil =>
    intro i rows n h
    unfold runStudyLoop at h
    simp only [Prod.mk.injEq] at h
    obtain ⟨h1, _⟩ := h
    injection h1 with h1'
    subst h1'
    exact ⟨rfl, fun j row hrow => by simp at hrow⟩
  | cons prof ps ih =>
    intro i rows n h
    unfold runStudyLoop at h
    dsimp only at h
    split at h
    next e heq => exact absurd h (by simp)
    next row heq =>
      cases hrec : runStudyLoop design outs (i + 1) ps with
      | mk rRes rN =>
        rw [hrec] at h
        cases rRes with
        | error e => exact absurd h (by simp [Except.map])
        | ok rrows =>
          simp only [Except.map, Prod.mk.injEq] at h
          obtain ⟨h1, _⟩ := h
          injection h1 with h1'
          subst h1'
          obtain ⟨ihlen, ihfields⟩ := ih (i + 1) rrows rN hrec
          refine ⟨by simp [ihlen], ?_⟩
          intro j r hrow
          cases j with
          | zero =>
            simp only [List.get?_cons_zero, Option.some.injEq] at hrow
            subst hrow
            obtain ⟨hpid, hage, hen, hzh⟩ := mkStudyRow_fields heq
            exact ⟨by rw [hpid], prof, rfl, hage, hen, hzh⟩
          | succ j' =>
            simp only [List.get?_cons_succ] at hrow ⊢
            obtain ⟨hpid, prof', hps, hage, hen, hzh⟩ := ihfields j' r hrow
            exact ⟨by omega, prof', hps, hage, hen, hzh⟩

/-- Witness fixture: two generated profiles for the multi-condition
pipeline. -/
def simProfilesFixture : List JVal :=
  [JVal.obj [("age", JVal.int 20), ("gender", JVal.str "male")],
   JVal.obj [("age", JVal.int 30), ("gender", JVal.str "female")]]

/-- Witness fixture: a deterministic stub of the external service. -/
def simOracleFixture : ℕ → String → String := fun _ _ => "My answer is 5."

/-- Witness fixture: two loaded profiles for the structured pipeline. -/
def studyProfilesFixture : List Profile :=
  [Profile.mk 20 "male" "男", Profile.mk 30 "female" "女"]

/-- Witness fixture: service outcomes where both attempts fail for every
participant. -/
def studyOutsFixture : ℕ → Except Unit JVal × Except Unit String :=
  fun _ => (Except.error (), Except.error ())

/-- Witness fixture: a two-entry questionnaire-language design. -/
def studyDesignFixture : List String := ["English", "Mandarin"]

/-- C9: rows are appended in strict iteration order.  Multi-condition
pipeline: the result has one row per (condition, profile) pair, and the row
at flattened index `c * |profiles| + p` is exactly the step for condition
`c` and profile `p` at call index `c * |profiles| + p` (condition-major,
profile-minor, one call per row, no reordering).  Single-condition
pipeline: a successful run emits one row per profile with
`participant_id = j + 1` strictly increasing and the `j`-th profile's
demographics in the `j`-th row. -/
theorem C9_rows_in_iteration_order :
    (∀ (profiles : List JVal) (oracle : ℕ → String → String),
      (run_simulation profiles oracle).length = conditions.length * profiles.length) ∧
    (∀ (profiles : List JVal) (oracle : ℕ → String → String) (c p : ℕ)
      (cd : String × String × String) (prof : JVal),
      conditions.get? c = some cd → profiles.get? p = some prof →
      (run_simulation profiles oracle).get? (c * profiles.length + p)
        = some (simStep cd prof oracle (c * profiles.length + p))) ∧
    (∀ (design : List String) (outs : ℕ → Except Unit JVal × Except Unit String)
      (profiles : List Profile) (rows : List StudyRow) (n : ℕ),
      runStudyLoop design outs 0 profiles = (.ok rows, n) →
      rows.length = profiles.length ∧
      ∀ j row, rows.get? j = some row →
        row.participant_id = j + 1 ∧
        ∃ prof, profiles.get? j = some prof ∧ row.age = prof.age ∧
          row.gender_en = prof.gender_en ∧ row.gender_zh = prof.gender_zh) := by
  refine ⟨?_, ?_, ?_⟩
  · intro profiles oracle
    cases profiles with
    | nil => simp [run_simulation]
    | cons q ps => exact simLoopC_length oracle (q :: ps) conditions 0
  · intro profiles oracle c p cd prof hc hp
    cases profiles with
    | nil => simp at hp
    | cons q ps =>
      have hsim := simLoopC_get? oracle (q :: ps) conditions 0 c p cd prof hc hp
      have h0 : (0 : ℕ) + c * (q :: ps).length + p = c * (q :: ps).length + p := by omega
      rw [h0] at hsim
      exact hsim
  · intro design outs profiles rows n h
    obtain ⟨hlen, hfields⟩ := runStudyLoop_ok_shape design outs profiles 0 rows n h
    refine ⟨hlen, fun j row hrow => ?_⟩
    obtain ⟨hpid, prof, hps, hage, hen, hzh⟩ := hfields j row hrow
    exact ⟨by omega, prof, hps, hage, hen, hzh⟩

/-- C9 (witness): on a 2-profile fixture the multi-condition pipeline
yields 16 rows with row 3 the (condition 1, profile 1) step at call index
3, and the structured loop on a 2-profile fixture with failing outcomes
emits rows with participant ids 1 and 2. -/
theorem C9_witness :
    (run_simulation simProfilesFixture simOracleFixture).length = 16 ∧
    (run_simulation simProfilesFixture simOracleFixture).get? 3
      = some (simStep ("English", "Indonesian", "Indonesia")
          (JVal.obj [("age", JVal.int 30), ("gender", JVal.str "female")])
          simOracleFixture 3) ∧
    (defaultStudyRow 1 (Profile.mk 30 "female" "女") "Mandarin").participant_id = 2 :=
  ⟨C9_rows_in_iteration_order.1 simProfilesFixture simOracleFixture,
   C9_rows_in_iteration_order.2.1 simProfilesFixture simOracleFixture 1 1
     ("English", "Indonesian", "Indonesia")
     (JVal.obj [("age", JVal.int 30), ("gender", JVal.str "female")]) rfl rfl,
   ((C9_rows_in_iteration_order.2.2 studyDesignFixture studyOutsFixture studyProfilesFixture
       [defaultStudyRow 0 (Profile.mk 20 "male" "男") "English",
        defaultStudyRow 1 (Profile.mk 30 "female" "女") "Mandarin"] 4 rfl).2 1
     (defaultStudyRow 1 (Profile.mk 30 "female" "女") "Mandarin") rfl).1⟩

/-- C1 (witness): the decomposition at concrete profiles. -/
theorem C1_witness :
    build_english_prompt "male" 35
      = enOutsideL ++ ("male" ++ ", " ++ toString (35 : ℤ)) ++ enOutsideR ∧
    build_mandarin_prompt "男性" 20
      = zhOutsideL ++ ("男性" ++ "，" ++ toString (20 : ℤ)) ++ zhOutsideR :=
  ⟨(C1_prompt_fixed_outside_span "male" "男性" 35).1,
   (C1_prompt_fixed_outside_span "male" "男性" 20).2⟩

/-- C2 (witness, the spec's own example): in `"He said 8, then 4 maybe"`
the 8 is not a candidate (the pattern starts with `[1-7]`) and the first
qualifying match is 4. -/
theorem C2_witness :
    extract_score "He said 8, then 4 maybe"
      = (((pyFindAll "He said 8, then 4 maybe").map (fun m => tokenVal m.data)).filter
          (fun q => decide (1 ≤ q ∧ q ≤ 7))).head? ∧
    extract_score "He said 8, then 4 maybe" = some 4 :=
  ⟨C2_first_qualifying_match "He said 8, then 4 maybe", by decide⟩

/-- C10 (witness): the boolean `false` is kept and behaves as 0. -/
theorem C10_witness :
    coerceItem (.bool false) = .ok (some (.bool false)) ∧
    pyInt (.bool false) = .ok 0 :=
  ⟨(C10_bool_item_kept false).1, (C10_bool_item_kept false).2.2⟩
